import Mathlib

/-!
# go-bamboo: plan branches and project role permissions

A shallow embedding of `branches.go` and `role.go`.

The HTTP client (`client.NewRequest`, `client.Do`) is not part of the two
source files; it is a parameter of every operation (`Client`).  Every call
on the client and every `log.Println` is recorded, in program order, in a
trace of `Event`s, so that what an operation sends and what it logs can be
stated.

Go values are embedded as follows: a pointer `*T` is `Option T` (`none` is
`nil`), a slice `[]T` is `Option (List T)` (`none` is the nil slice), an
`error` is `Option GoError` (`none` is `nil`), `int` is `Int`.
-/

namespace Bamboo

/-! ## Declarations the two files use but do not contain -/

/-- The struct types that `branches.go` embeds or points to and that are
declared in other files of the package. They are parameters of the model. -/
structure Decls where
  /-- Go type `Link`. -/
  Link : Type
  /-- Go type `PlanKey`. -/
  PlanKey : Type
  /-- Go type `ResourceMetadata`. -/
  ResourceMetadata : Type
  /-- Go type `CollectionMetadata`. -/
  CollectionMetadata : Type
  /-- Go constant `ReadPermission`, the name of the read permission. -/
  ReadPermission : String

/-- A Go slice: `none` is the nil slice. -/
abbrev Slice (α : Type) : Type := Option (List α)

/-- Go `len` of a slice. -/
def Slice.len {α : Type} : Slice α → Nat
  | none => 0
  | some xs => xs.length

/-- Modelled from the spec: the type `simpleError` is declared outside the two
source files; the positional literal `simpleError{msg}` used throughout shows a
single string field, and the spec describes the error by its message. -/
structure simpleError where
  /-- The message the error was built from. -/
  s : String
deriving DecidableEq, Repr

/-- A non-nil Go `error` value: either a `*simpleError` built by this package,
or an error handed back by the transport. -/
inductive GoError where
  | simple (e : simpleError)
  | transport (msg : String)
deriving DecidableEq, Repr

/-- The text of `err.Error()`. Modelled from the spec for a `*simpleError`,
whose `Error` method is declared outside the two source files: the message is
the text the error was built from. -/
def GoError.Error : GoError → String
  | .simple e => e.s
  | .transport msg => msg

/-- The fields of `*http.Response` that the code reads. -/
structure Response where
  /-- The status line text, e.g. "404 Not Found". -/
  Status : String
  /-- The numeric status code. -/
  StatusCode : Int
deriving DecidableEq, Repr

/-- The request body handed to `NewRequest` (an `interface{}`):
`none` is `nil`, `some p` is a `[]string`. -/
abbrev Body : Type := Option (Slice String)

/-- What `client.NewRequest` hands back: the request the transport will send.
`Query` holds the URL query values (`request.URL.Query()`), keyed by name. -/
structure Request where
  Method : String
  URL : String
  Query : List (String × List String)
  Body : Body
deriving DecidableEq, Repr

/-- Go `url.Values.Set`: the key is bound to the single value given. -/
def Values.Set (q : List (String × List String)) (key value : String) :
    List (String × List String) :=
  (key, [value]) :: q.filter (fun kv => kv.1 != key)

/-! ## Data model of `branches.go` -/

/-- Go struct `Branch`. -/
structure Branch (D : Decls) where
  Description : String
  ShortName : String
  ShortKey : String
  Enabled : Bool
  Link : Option D.Link
  WorkflowType : String
  PlanKey : Option D.PlanKey
  Name : String

/-- Go struct `Branches`. -/
structure Branches (D : Decls) where
  CollectionMetadata : Option D.CollectionMetadata
  BranchList : Slice (Option (Branch D))

/-- Go struct `PlanBranchResponse`. -/
structure PlanBranchResponse (D : Decls) where
  ResourceMetadata : Option D.ResourceMetadata
  Branches : Option (Branches D)

/-- The zero value `PlanBranchResponse{}`. -/
def PlanBranchResponse.zero (D : Decls) : PlanBranchResponse D :=
  { ResourceMetadata := none, Branches := none }

/-! ## Data model of `role.go` -/

/-- Go constant `AnonymousRole`. -/
def AnonymousRole : String := "ANONYMOUS"

/-- Go constant `LoggedInRole`. -/
def LoggedInRole : String := "LOGGED_IN"

/-- Go struct `Role`. -/
structure Role where
  Name : String
  Permissions : Slice String
deriving DecidableEq, Repr

/-- Go struct `roleProjectPlanResponce`; its only field is spelled `results`,
in lower case. -/
structure roleProjectPlanResponce where
  results : Slice Role
deriving DecidableEq, Repr

/-- The zero value `roleProjectPlanResponce{}`. -/
def roleProjectPlanResponce.zero : roleProjectPlanResponce := { results := none }

/-! ## The injected client -/

/-- The kind of value `client.Do` is asked to decode the body into: the
second argument of `Do` in the three ways the code calls it. -/
inductive TargetKind where
  | planBranch
  | roleList
  | nil
deriving DecidableEq, Repr

/-- The Go type of the decode target. -/
@[reducible] def TargetKind.type (D : Decls) : TargetKind → Type
  | .planBranch => PlanBranchResponse D
  | .roleList => roleProjectPlanResponce
  | .nil => Unit

/-- What `client.Do(request, v)` gives back. With a non-nil error the response
may or may not be present. With a nil error the transport hands over the
response it received (the contract of `net/http`, on which every function of
the two files relies when it reads `response.StatusCode` right after the error
check), and `v` holds whatever the body was decoded into. -/
inductive DoResult (T : Type) where
  | failure (response : Option Response) (err : GoError)
  | success (response : Response) (v : T)

/-- The client of the package, `pb.client` / `pr.client`. -/
structure Client (D : Decls) where
  /-- `client.NewRequest(method, urlStr, body)`. -/
  NewRequest : String → String → Body → Except GoError Request
  /-- `client.Do(request, v)`, `v` a pointer to a value of kind `k`. -/
  Do : (k : TargetKind) → Request → k.type D → DoResult (k.type D)

/-- An observable step of an operation. -/
inductive Event where
  | newRequest (method url : String) (body : Body)
  | send (request : Request)
  | log (line : String)
deriving DecidableEq, Repr

/-- The lines written with `log.Println`, in order. -/
def logLines : List Event → List String
  | [] => []
  | .log l :: es => l :: logLines es
  | _ :: es => logLines es

/-- The `NewRequest` calls made, in order. -/
def requestsBuilt : List Event → List (String × String × Body)
  | [] => []
  | .newRequest m u b :: es => (m, u, b) :: requestsBuilt es
  | _ :: es => requestsBuilt es

/-- The requests handed to `Do`, in order. -/
def requestsSent : List Event → List Request
  | [] => []
  | .send r :: es => r :: requestsSent es
  | _ :: es => requestsSent es

/-- How a Go call ends: it returns its results, or it panics (here only on a
nil pointer dereference). -/
inductive Outcome (α : Type) where
  | returns (a : α)
  | panics
deriving DecidableEq, Repr

/-- A run of an operation: how it ended and what it did on the way. -/
structure Run (α : Type) where
  out : α
  trace : List Event

/-! ## `branches.go` -/

/-- The three results of `ListPlanBranches`. -/
structure BranchesResult (D : Decls) where
  branches : Slice (Option (Branch D))
  response : Option Response
  err : Option GoError

/-- Lines 55 to 60 of `branches.go`: the request with `max-results` and
`expand` set in its URL query. -/
def withBranchQuery (request : Request) : Request :=
  let q := request.Query
  let q := Values.Set q "max-results" "10000"
  let q := Values.Set q "expand" "branches"
  { request with Query := q }

/-- Go `(*PlanBranchService).ListPlanBranches`. -/
def ListPlanBranches {D : Decls} (c : Client D) (planKey : String) :
    Run (Outcome (BranchesResult D)) :=
  let u := "plan/" ++ planKey ++ "/.json"
  match c.NewRequest "GET" u none with
  | .error err =>
    { out := .returns { branches := none, response := none, err := some err },
      trace := [.newRequest "GET" u none] }
  | .ok request =>
    let request := withBranchQuery request
    match c.Do .planBranch request (PlanBranchResponse.zero D) with
    | .failure response err =>
      { out := .returns { branches := none, response := response, err := some err },
        trace := [.newRequest "GET" u none, .send request] }
    | .success response planBranchResponse =>
      if !(response.StatusCode == 200) then
        { out := .returns
            { branches := none, response := some response,
              err := some (.simple ⟨"Listing plan branches for " ++ planKey ++
                " returned " ++ response.Status⟩) },
          trace := [.newRequest "GET" u none, .send request] }
      else
        match planBranchResponse.Branches with
        | none => { out := .panics, trace := [.newRequest "GET" u none, .send request] }
        | some branches =>
          { out := .returns
              { branches := branches.BranchList, response := some response, err := none },
            trace := [.newRequest "GET" u none, .send request] }

/-! ## `role.go` -/

/-- Go `fmt` verb `%d` on an `int`: the decimal digits, with a leading minus
sign for a negative number. -/
def formatDecimal : Int → String
  | .ofNat n => Nat.repr n
  | .negSucc n => "-" ++ Nat.repr (n + 1)

/-- The three results of `RolePermissionsList`. -/
structure RolesResult where
  roles : Slice Role
  response : Option Response
  err : Option GoError
deriving DecidableEq, Repr

/-- The two results of a permission mutation. -/
structure MutationResult where
  response : Option Response
  err : Option GoError
deriving DecidableEq, Repr

/-- Go `(*ProjectPlanService).RolePermissionsList`. -/
def RolePermissionsList {D : Decls} (c : Client D) (projectKey : String) : Run RolesResult :=
  let u := "permissions/projectplan/" ++ projectKey ++ "/roles"
  match c.NewRequest "GET" u none with
  | .error err =>
    { out := { roles := none, response := none, err := some err },
      trace := [.newRequest "GET" u none] }
  | .ok request =>
    match c.Do .roleList request roleProjectPlanResponce.zero with
    | .failure response err =>
      { out := { roles := none, response := response, err := some err },
        trace := [.newRequest "GET" u none, .send request] }
    | .success response data =>
      if response.StatusCode = 401 then
        { out := { roles := none, response := some response,
                   err := some (.simple ⟨"You must be an admin to access this information"⟩) },
          trace := [.newRequest "GET" u none, .send request] }
      else if response.StatusCode ≠ 200 then
        { out := { roles := none, response := some response,
                   err := some (.simple ⟨"Retrieving role information for project " ++
                     projectKey ++ " returned " ++ response.Status⟩) },
          trace := [.newRequest "GET" u none, .send request] }
      else
        { out := { roles := data.results, response := none, err := none },
          trace := [.newRequest "GET" u none, .send request] }

/-- Go `(*ProjectPlanService).SetLoggedInUserPermissions`. -/
def SetLoggedInUserPermissions {D : Decls} (c : Client D) (projectKey : String)
    (permissions : Slice String) : Run MutationResult :=
  let u := "permissions/projectplan/" ++ projectKey ++ "/roles/" ++ LoggedInRole
  match c.NewRequest "PUT" u (some permissions) with
  | .error err =>
    { out := { response := none, err := some err },
      trace := [.newRequest "PUT" u (some permissions)] }
  | .ok request =>
    match c.Do .nil request () with
    | .failure response err =>
      { out := { response := response, err := some err },
        trace := [.newRequest "PUT" u (some permissions), .send request] }
    | .success response _ =>
      if response.StatusCode = 401 then
        { out := { response := some response,
                   err := some (.simple ⟨"You must be an admin to preform this action"⟩) },
          trace := [.newRequest "PUT" u (some permissions), .send request] }
      else if response.StatusCode = 304 then
        { out := { response := none, err := none },
          trace := [.newRequest "PUT" u (some permissions), .send request,
            .log "Logged In Users Role already had requested permissions and permission state hasn\x27t been changed."] }
      else if response.StatusCode = 204 then
        { out := { response := none, err := none },
          trace := [.newRequest "PUT" u (some permissions), .send request,
            .log "Logged In Users Role\x27s permissions were granted."] }
      else
        { out := { response := some response,
                   err := some (.simple ⟨"Server responded with unexpected return code " ++
                     formatDecimal response.StatusCode⟩) },
          trace := [.newRequest "PUT" u (some permissions), .send request] }

/-- Go `(*ProjectPlanService).RemoveLoggedInUsersPermissions`. -/
def RemoveLoggedInUsersPermissions {D : Decls} (c : Client D) (projectKey : String)
    (permissions : Slice String) : Run MutationResult :=
  let u := "permissions/projectplan/" ++ projectKey ++ "/roles/" ++ LoggedInRole
  match c.NewRequest "DELETE" u (some permissions) with
  | .error err =>
    { out := { response := none, err := some err },
      trace := [.newRequest "DELETE" u (some permissions)] }
  | .ok request =>
    match c.Do .nil request () with
    | .failure response err =>
      { out := { response := response, err := some err },
        trace := [.newRequest "DELETE" u (some permissions), .send request] }
    | .success response _ =>
      if response.StatusCode = 401 then
        { out := { response := some response,
                   err := some (.simple ⟨"You must be an admin to preform this action"⟩) },
          trace := [.newRequest "DELETE" u (some permissions), .send request] }
      else if response.StatusCode = 304 then
        { out := { response := none, err := none },
          trace := [.newRequest "DELETE" u (some permissions), .send request,
            .log "Logged In Users Role already lacked requested permissions and permission state hasn\x27t been changed"] }
      else if response.StatusCode = 204 then
        { out := { response := none, err := none },
          trace := [.newRequest "DELETE" u (some permissions), .send request,
            .log "Logged In Users Role\x27s permissions were revoked."] }
      else
        { out := { response := some response,
                   err := some (.simple ⟨"Server responded with unexpected return code " ++
                     formatDecimal response.StatusCode⟩) },
          trace := [.newRequest "DELETE" u (some permissions), .send request] }

/-- Go `(*ProjectPlanService).SetAnonymousReadPermission`. -/
def SetAnonymousReadPermission {D : Decls} (c : Client D) (projectKey : String) :
    Run MutationResult :=
  let u := "permissions/projectplan/" ++ projectKey ++ "/roles/" ++ AnonymousRole
  let body : Body := some (some [D.ReadPermission])
  match c.NewRequest "PUT" u body with
  | .error err =>
    { out := { response := none, err := some err }, trace := [.newRequest "PUT" u body] }
  | .ok request =>
    match c.Do .nil request () with
    | .failure response err =>
      { out := { response := response, err := some err },
        trace := [.newRequest "PUT" u body, .send request] }
    | .success response _ =>
      if response.StatusCode = 401 then
        { out := { response := some response,
                   err := some (.simple ⟨"You must be an admin to preform this action"⟩) },
          trace := [.newRequest "PUT" u body, .send request] }
      else if response.StatusCode = 304 then
        { out := { response := none, err := none },
          trace := [.newRequest "PUT" u body, .send request,
            .log "Anonymous Role already had requested permissions and permission state hasn\x27t been changed."] }
      else if response.StatusCode = 204 then
        { out := { response := none, err := none },
          trace := [.newRequest "PUT" u body, .send request,
            .log "Anonymous Role\x27s permissions were granted."] }
      else
        { out := { response := some response,
                   err := some (.simple ⟨"Server responded with unexpected return code " ++
                     formatDecimal response.StatusCode⟩) },
          trace := [.newRequest "PUT" u body, .send request] }

/-- Go `(*ProjectPlanService).RemoveAnonymousReadPermission`. -/
def RemoveAnonymousReadPermission {D : Decls} (c : Client D) (projectKey : String) :
    Run MutationResult :=
  let u := "permissions/projectplan/" ++ projectKey ++ "/roles/" ++ AnonymousRole
  let body : Body := some (some [D.ReadPermission])
  match c.NewRequest "DELETE" u body with
  | .error err =>
    { out := { response := none, err := some err }, trace := [.newRequest "DELETE" u body] }
  | .ok request =>
    match c.Do .nil request () with
    | .failure response err =>
      { out := { response := response, err := some err },
        trace := [.newRequest "DELETE" u body, .send request] }
    | .success response _ =>
      if response.StatusCode = 400 then
        { out := { response := some response,
                   err := some (.simple ⟨"Group doesn\x27t exist or one of the requested permission isn\x27t supported for the given endpoint."⟩) },
          trace := [.newRequest "DELETE" u body, .send request] }
      else if response.StatusCode = 401 then
        { out := { response := some response,
                   err := some (.simple ⟨"You must be an admin to preform this action"⟩) },
          trace := [.newRequest "DELETE" u body, .send request] }
      else if response.StatusCode = 304 then
        { out := { response := none, err := none },
          trace := [.newRequest "DELETE" u body, .send request,
            .log "Anonymous Role already lacked requested permissions and permission state hasn\x27t been changed"] }
      else if response.StatusCode = 204 then
        { out := { response := none, err := none },
          trace := [.newRequest "DELETE" u body, .send request,
            .log "Anonymous Role\x27s permissions were revoked."] }
      else
        { out := { response := some response,
                   err := some (.simple ⟨"Server responded with unexpected return code " ++
                     formatDecimal response.StatusCode⟩) },
          trace := [.newRequest "DELETE" u body, .send request] }

/-! ## The four mutations as one family -/

/-- The four permission mutations of `role.go`. -/
inductive Mutation where
  | setLoggedIn
  | removeLoggedIn
  | setAnonymous
  | removeAnonymous
deriving DecidableEq, Repr

/-- Runs the Go function the tag names. The two anonymous operations take no
permission list. -/
def Mutation.run {D : Decls} (op : Mutation) (c : Client D) (projectKey : String)
    (permissions : Slice String) : Run MutationResult :=
  match op with
  | .setLoggedIn => SetLoggedInUserPermissions c projectKey permissions
  | .removeLoggedIn => RemoveLoggedInUsersPermissions c projectKey permissions
  | .setAnonymous => SetAnonymousReadPermission c projectKey
  | .removeAnonymous => RemoveAnonymousReadPermission c projectKey

/-- The HTTP method in the `NewRequest` call of each mutation. -/
def Mutation.method : Mutation → String
  | .setLoggedIn => "PUT"
  | .removeLoggedIn => "DELETE"
  | .setAnonymous => "PUT"
  | .removeAnonymous => "DELETE"

/-- The role constant in the `Sprintf` call of each mutation. -/
def Mutation.role : Mutation → String
  | .setLoggedIn => LoggedInRole
  | .removeLoggedIn => LoggedInRole
  | .setAnonymous => AnonymousRole
  | .removeAnonymous => AnonymousRole

/-- The URL each mutation formats:
`fmt.Sprintf("permissions/projectplan/%s/roles/%s", projectKey, role)`. -/
def Mutation.url (op : Mutation) (projectKey : String) : String :=
  "permissions/projectplan/" ++ projectKey ++ "/roles/" ++ op.role

/-- The body argument in the `NewRequest` call of each mutation. -/
def Mutation.body (D : Decls) (op : Mutation) (permissions : Slice String) : Body :=
  match op with
  | .setLoggedIn => some permissions
  | .removeLoggedIn => some permissions
  | .setAnonymous => some (some [D.ReadPermission])
  | .removeAnonymous => some (some [D.ReadPermission])

/-- The client builds the request of mutation `op` and the transport answers
it with `response` and a nil error. -/
def Client.Answers {D : Decls} (c : Client D) (op : Mutation) (projectKey : String)
    (permissions : Slice String) (response : Response) : Prop :=
  ∃ request, c.NewRequest op.method (op.url projectKey) (op.body D permissions) = .ok request ∧
    c.Do .nil request () = .success response ()

/-! ## Text -/

/-- The text `sub` occurs in the text `s`. -/
def Contains (s sub : String) : Prop := ∃ a b : String, s = a ++ sub ++ b

/-! ## JSON decoding into the role list target -/

/-- A JSON value. -/
inductive JSON where
  | null
  | bool (b : Bool)
  | number (n : Int)
  | string (s : String)
  | array (items : List JSON)
  | object (members : List (String × JSON))

/-- A struct field as declared in the Go source: its name and the name given
in its `json` tag, if it has one. -/
structure FieldDecl where
  goName : String
  tag : Option String
deriving DecidableEq, Repr

/-- Go: an identifier is exported when it starts with an upper case letter. -/
def FieldDecl.exported (f : FieldDecl) : Bool :=
  match f.goName.data with
  | ch :: _ => ch.isUpper
  | [] => false

/-- The JSON key `encoding/json` binds to a field: none for an unexported
field, the tag name for a tagged field, the Go name otherwise. -/
def FieldDecl.key (f : FieldDecl) : Option String :=
  if f.exported then some (f.tag.getD f.goName) else none

/-- Letter folding of `encoding/json` when a key is compared with a field
name: ASCII letters fold to lower case, and so do the long s (U+017F) and the
Kelvin sign (U+212A), the two other characters that fold to an ASCII letter.
The field names of this package are ASCII. -/
def foldChar (ch : Char) : Char :=
  if ch = Char.ofNat 0x17F then 's'
  else if ch = Char.ofNat 0x212A then 'k'
  else ch.toLower

/-- Key matching of `encoding/json`: exact, or equal up to letter folding. -/
def keyMatches (key name : String) : Bool :=
  key == name || key.data.map foldChar == name.data.map foldChar

/-- The declaration `results []Role` of `roleProjectPlanResponce`. -/
def resultsField : FieldDecl := { goName := "results", tag := none }

/-- The word `encoding/json` uses for the kind of a JSON value in a type
error. -/
def JSON.kind : JSON → String
  | .null => "null"
  | .bool _ => "bool"
  | .number _ => "number"
  | .string _ => "string"
  | .array _ => "array"
  | .object _ => "object"

/-- Go `json.UnmarshalTypeError`: the JSON kind met, the Go type it could not
be stored in, and the innermost struct and the field path on the way to it
(both empty at top level). -/
structure UnmarshalTypeError where
  Value : String
  /-- Go field `Type`, by the name of the type. -/
  GoType : String
  Struct : String
  Field : String
deriving DecidableEq, Repr

/-- Go `(*UnmarshalTypeError).Error`. -/
def UnmarshalTypeError.Error (e : UnmarshalTypeError) : String :=
  if e.Struct != "" || e.Field != "" then
    "json: cannot unmarshal " ++ e.Value ++ " into Go struct field " ++ e.Struct ++ "." ++
      e.Field ++ " of type " ++ e.GoType
  else
    "json: cannot unmarshal " ++ e.Value ++ " into Go value of type " ++ e.GoType

/-- A type error met while decoding the field with JSON name `field` of the
struct `struct`: the innermost struct is kept and the field joins the path. -/
def UnmarshalTypeError.inField (struct field : String) (e : UnmarshalTypeError) :
    UnmarshalTypeError :=
  { e with
    Struct := if e.Struct == "" then struct else e.Struct,
    Field := if e.Field == "" then field else field ++ "." ++ e.Field }

/-- Decoding a JSON value into a Go `string`. -/
def unmarshalString (j : JSON) (old : String) : Except UnmarshalTypeError String :=
  match j with
  | .string s => .ok s
  | .null => .ok old
  | _ => .error { Value := j.kind, GoType := "string", Struct := "", Field := "" }

/-- Decoding a JSON value into a Go `[]string`. -/
def unmarshalStrings (j : JSON) : Except UnmarshalTypeError (Slice String) :=
  match j with
  | .array items => (items.mapM (fun i => unmarshalString i "")).map some
  | .null => .ok none
  | _ => .error { Value := j.kind, GoType := "[]string", Struct := "", Field := "" }

/-- Decoding a JSON value into a Go `Role` (fields `Name`, tagged `name`, and
`Permissions`, tagged `permissions`). -/
def unmarshalRole (j : JSON) (old : Role) : Except UnmarshalTypeError Role :=
  match j with
  | .object members =>
    members.foldlM (fun r kv =>
      if keyMatches kv.1 "name" then
        ((unmarshalString kv.2 r.Name).mapError
          (UnmarshalTypeError.inField "Role" "name")).map (fun n => { r with Name := n })
      else if keyMatches kv.1 "permissions" then
        ((unmarshalStrings kv.2).mapError
          (UnmarshalTypeError.inField "Role" "permissions")).map
          (fun ps => { r with Permissions := ps })
      else .ok r) old
  | .null => .ok old
  | _ => .error { Value := j.kind, GoType := "bamboo.Role", Struct := "", Field := "" }

/-- Decoding a JSON value into a Go `[]Role`. -/
def unmarshalRoles (j : JSON) : Except UnmarshalTypeError (Slice Role) :=
  match j with
  | .array items =>
    (items.mapM (fun i => unmarshalRole i { Name := "", Permissions := none })).map some
  | .null => .ok none
  | _ => .error { Value := j.kind, GoType := "[]bamboo.Role", Struct := "", Field := "" }

/-- Decoding a JSON value into a struct whose single field, of type `[]Role`,
is declared as `field`: members of the object that match no settable field
are skipped. -/
def unmarshalRoleList (field : FieldDecl) (j : JSON) (old : roleProjectPlanResponce) :
    Except UnmarshalTypeError roleProjectPlanResponce :=
  match j with
  | .object members =>
    match field.key with
    | none => .ok old
    | some name =>
      members.foldlM (fun r kv =>
        if keyMatches kv.1 name then
          ((unmarshalRoles kv.2).mapError
            (UnmarshalTypeError.inField "roleProjectPlanResponce" name)).map
            (fun rs => { r with results := rs })
        else .ok r) old
  | .null => .ok old
  | _ => .error { Value := j.kind, GoType := "bamboo.roleProjectPlanResponce", Struct := "",
                  Field := "" }

/-- Modelled from the spec: `client.Do` is declared outside the two source
files; the spec has it "execute a request, decoding a JSON response body into
a caller-supplied target structure, returning the raw HTTP status". Here the
target is the `roleProjectPlanResponce` of `RolePermissionsList`, decoded by
the rules of `encoding/json` on the struct as declared in `role.go`. -/
def DoRoleList (response : Response) (body : JSON) (v : roleProjectPlanResponce) :
    DoResult roleProjectPlanResponce :=
  match unmarshalRoleList resultsField body v with
  | .ok v => .success response v
  | .error err => .failure (some response) (.transport err.Error)

/-- A client that builds the request it is asked for and whose transport is
`transport`. -/
def Client.over (D : Decls)
    (transport : (k : TargetKind) → Request → k.type D → DoResult (k.type D)) : Client D :=
  { NewRequest := fun method url body =>
      .ok { Method := method, URL := url, Query := [], Body := body },
    Do := transport }

/-- A transport that answers every request with the same status and decodes
nothing. -/
def answering (D : Decls) (response : Response) :
    (k : TargetKind) → Request → k.type D → DoResult (k.type D) :=
  fun _ _ v => .success response v

/-- A transport that answers a role listing with `response` and the JSON
`body`, and any other request with a connection error. -/
def servingRoles (D : Decls) (response : Response) (body : JSON) :
    (k : TargetKind) → Request → k.type D → DoResult (k.type D)
  | .roleList => fun _ v => DoRoleList response body v
  | .planBranch => fun _ _ => .failure none (.transport "connection refused")
  | .nil => fun _ _ => .failure none (.transport "connection refused")

/-- A transport that answers a branch listing with `response` and the decoded
`envelope`, and any other request with a connection error. -/
def servingBranches (D : Decls) (response : Response) (envelope : PlanBranchResponse D) :
    (k : TargetKind) → Request → k.type D → DoResult (k.type D)
  | .planBranch => fun _ _ => .success response envelope
  | .roleList => fun _ _ => .failure none (.transport "connection refused")
  | .nil => fun _ _ => .failure none (.transport "connection refused")

/-- The missing declarations, filled in for the examples: the struct types
carry no data, the read permission is named "READ". -/
def exampleDecls : Decls :=
  { Link := Unit, PlanKey := Unit, ResourceMetadata := Unit, CollectionMetadata := Unit,
    ReadPermission := "READ" }

/-- The role list body `{"results": [{"name": "ANONYMOUS", "permissions": ["READ"]}]}`. -/
def exampleRoleBody : JSON :=
  .object [("results", .array [.object [("name", .string "ANONYMOUS"),
    ("permissions", .array [.string "READ"])]])]

/-- The one shape of transport result on which `ListPlanBranches` reads
through a nil pointer: the request is built, the transport answers with a nil
error and status 200, and the decoded envelope has no branches object. -/
def BranchesMissing {D : Decls} (c : Client D) (planKey : String) : Prop :=
  ∃ (request : Request) (response : Response) (envelope : PlanBranchResponse D),
    c.NewRequest "GET" ("plan/" ++ planKey ++ "/.json") none = .ok request ∧
    c.Do .planBranch (withBranchQuery request) (PlanBranchResponse.zero D) =
      .success response envelope ∧
    response.StatusCode = 200 ∧ envelope.Branches = none

/-- A branch named "master", as in the end-to-end scenario of the spec. -/
def exampleBranch : Branch exampleDecls :=
  { Description := "", ShortName := "master", ShortKey := "0", Enabled := true, Link := none,
    WorkflowType := "", PlanKey := none, Name := "" }

/-- A decoded envelope holding the one branch `exampleBranch`. -/
def exampleEnvelope : PlanBranchResponse exampleDecls :=
  { ResourceMetadata := none,
    Branches := some { CollectionMetadata := none, BranchList := some [some exampleBranch] } }

/-- A client whose transport answers every request with `response`. -/
def statusClient (response : Response) : Client exampleDecls :=
  Client.over exampleDecls (answering exampleDecls response)

/-- A client whose transport answers a branch listing with `response` and
`envelope`. -/
def branchClient (response : Response) (envelope : PlanBranchResponse exampleDecls) :
    Client exampleDecls :=
  Client.over exampleDecls (servingBranches exampleDecls response envelope)

/-- A client whose transport answers a role listing with status 200 and the
body `exampleRoleBody`. -/
def roleClient : Client exampleDecls :=
  Client.over exampleDecls (servingRoles exampleDecls ⟨"200 OK", 200⟩ exampleRoleBody)

/-! ## Theorems -/

/-- The `%d` rendering is the decimal numeral of the integer. -/
theorem formatDecimal_eq_toString (n : Int) : formatDecimal n = toString n := by
  cases n <;> rfl

theorem contains_end (a sub : String) : Contains (a ++ sub) sub :=
  ⟨a, "", by simp⟩

theorem contains_inner (a sub b d : String) : Contains (a ++ sub ++ b ++ d) sub :=
  ⟨a, b ++ d, by simp [String.append_assoc]⟩

/-- C5. For each of the four mutations, every project key and every status
code the transport returns with a nil error, the error returned is nil exactly
when the status code is 204 or 304; in particular status 200 gives a non-nil
error. -/
theorem mutation_err_nil_iff {D : Decls} (op : Mutation) (c : Client D) (projectKey : String)
    (permissions : Slice String) (response : Response)
    (h : c.Answers op projectKey permissions response) :
    ((op.run c projectKey permissions).out.err = none ↔
        (response.StatusCode = 204 ∨ response.StatusCode = 304)) ∧
      (response.StatusCode = 200 → (op.run c projectKey permissions).out.err ≠ none) := by
  obtain ⟨request, hNew, hDo⟩ := h
  cases op <;>
    simp only [Mutation.method, Mutation.url, Mutation.role, Mutation.body] at hNew <;>
    simp only [Mutation.run, SetLoggedInUserPermissions, RemoveLoggedInUsersPermissions,
      SetAnonymousReadPermission, RemoveAnonymousReadPermission, hNew, hDo] <;>
    split_ifs <;> simp_all

/-- C4. When the transport reports no error and the status code is 401, each
of the four mutations returns a non-nil error whose message contains "must be
an admin", and so does `RolePermissionsList`, which returns a nil role list
with it. -/
theorem unauthorized_is_admin_error {D : Decls} (c : Client D) (projectKey : String) :
    (∀ (op : Mutation) (permissions : Slice String) (response : Response),
        c.Answers op projectKey permissions response → response.StatusCode = 401 →
        ∃ e, (op.run c projectKey permissions).out.err = some e ∧
          Contains e.Error "must be an admin") ∧
    (∀ (request : Request) (response : Response) (data : roleProjectPlanResponce),
        c.NewRequest "GET" ("permissions/projectplan/" ++ projectKey ++ "/roles") none =
          .ok request →
        c.Do .roleList request roleProjectPlanResponce.zero = .success response data →
        response.StatusCode = 401 →
        (RolePermissionsList c projectKey).out.roles = none ∧
        ∃ e, (RolePermissionsList c projectKey).out.err = some e ∧
          Contains e.Error "must be an admin") := by
  constructor
  · intro op permissions response h h401
    obtain ⟨request, hNew, hDo⟩ := h
    refine ⟨.simple ⟨"You must be an admin to preform this action"⟩, ?_,
      ⟨"You ", " to preform this action", by decide⟩⟩
    cases op <;>
      simp only [Mutation.method, Mutation.url, Mutation.role, Mutation.body] at hNew <;>
      simp [Mutation.run, SetLoggedInUserPermissions, RemoveLoggedInUsersPermissions,
        SetAnonymousReadPermission, RemoveAnonymousReadPermission, hNew, hDo, h401]
  · intro request response data hNew hDo h401
    refine ⟨?_, .simple ⟨"You must be an admin to access this information"⟩, ?_,
      ⟨"You ", " to access this information", by decide⟩⟩ <;>
      simp [RolePermissionsList, hNew, hDo, h401]

/-- C6. For each of the four mutations, a 204 answer returns a nil error and
logs exactly one line, the "permissions were granted" line of a Set operation
or the "permissions were revoked" line of a Remove operation; a 304 answer
returns a nil error and logs exactly one line, the "permission state hasn't
been changed" line of that operation. For every mutation the lines logged on
204 differ from the lines logged on 304, and a run that returns a non-nil
error logs nothing. -/
theorem success_is_logged_once (D : Decls) :
    (∀ (c : Client D) (projectKey : String) (permissions : Slice String) (response : Response),
      c.Answers .setLoggedIn projectKey permissions response →
      (response.StatusCode = 204 →
        (Mutation.run .setLoggedIn c projectKey permissions).out.err = none ∧
        logLines (Mutation.run .setLoggedIn c projectKey permissions).trace =
          ["Logged In Users Role\x27s permissions were granted."]) ∧
      (response.StatusCode = 304 →
        (Mutation.run .setLoggedIn c projectKey permissions).out.err = none ∧
        logLines (Mutation.run .setLoggedIn c projectKey permissions).trace =
          ["Logged In Users Role already had requested permissions and permission state hasn\x27t been changed."])) ∧
    (∀ (c : Client D) (projectKey : String) (permissions : Slice String) (response : Response),
      c.Answers .removeLoggedIn projectKey permissions response →
      (response.StatusCode = 204 →
        (Mutation.run .removeLoggedIn c projectKey permissions).out.err = none ∧
        logLines (Mutation.run .removeLoggedIn c projectKey permissions).trace =
          ["Logged In Users Role\x27s permissions were revoked."]) ∧
      (response.StatusCode = 304 →
        (Mutation.run .removeLoggedIn c projectKey permissions).out.err = none ∧
        logLines (Mutation.run .removeLoggedIn c projectKey permissions).trace =
          ["Logged In Users Role already lacked requested permissions and permission state hasn\x27t been changed"])) ∧
    (∀ (c : Client D) (projectKey : String) (permissions : Slice String) (response : Response),
      c.Answers .setAnonymous projectKey permissions response →
      (response.StatusCode = 204 →
        (Mutation.run .setAnonymous c projectKey permissions).out.err = none ∧
        logLines (Mutation.run .setAnonymous c projectKey permissions).trace =
          ["Anonymous Role\x27s permissions were granted."]) ∧
      (response.StatusCode = 304 →
        (Mutation.run .setAnonymous c projectKey permissions).out.err = none ∧
        logLines (Mutation.run .setAnonymous c projectKey permissions).trace =
          ["Anonymous Role already had requested permissions and permission state hasn\x27t been changed."])) ∧
    (∀ (c : Client D) (projectKey : String) (permissions : Slice String) (response : Response),
      c.Answers .removeAnonymous projectKey permissions response →
      (response.StatusCode = 204 →
        (Mutation.run .removeAnonymous c projectKey permissions).out.err = none ∧
        logLines (Mutation.run .removeAnonymous c projectKey permissions).trace =
          ["Anonymous Role\x27s permissions were revoked."]) ∧
      (response.StatusCode = 304 →
        (Mutation.run .removeAnonymous c projectKey permissions).out.err = none ∧
        logLines (Mutation.run .removeAnonymous c projectKey permissions).trace =
          ["Anonymous Role already lacked requested permissions and permission state hasn\x27t been changed"])) ∧
    (∀ (op : Mutation) (c₁ c₂ : Client D) (key₁ key₂ : String) (perms₁ perms₂ : Slice String)
        (response₁ response₂ : Response),
      c₁.Answers op key₁ perms₁ response₁ → c₂.Answers op key₂ perms₂ response₂ →
      response₁.StatusCode = 204 → response₂.StatusCode = 304 →
      logLines (op.run c₁ key₁ perms₁).trace ≠ logLines (op.run c₂ key₂ perms₂).trace) ∧
    (∀ (op : Mutation) (c : Client D) (projectKey : String) (permissions : Slice String),
      (op.run c projectKey permissions).out.err ≠ none →
      logLines (op.run c projectKey permissions).trace = []) := by
  refine ⟨?_, ?_, ?_, ?_, ?_, ?_⟩
  · rintro c projectKey permissions response ⟨request, hNew, hDo⟩
    simp only [Mutation.method, Mutation.url, Mutation.role, Mutation.body] at hNew
    constructor <;> intro hc <;>
      simp [Mutation.run, SetLoggedInUserPermissions, hNew, hDo, hc, logLines]
  · rintro c projectKey permissions response ⟨request, hNew, hDo⟩
    simp only [Mutation.method, Mutation.url, Mutation.role, Mutation.body] at hNew
    constructor <;> intro hc <;>
      simp [Mutation.run, RemoveLoggedInUsersPermissions, hNew, hDo, hc, logLines]
  · rintro c projectKey permissions response ⟨request, hNew, hDo⟩
    simp only [Mutation.method, Mutation.url, Mutation.role, Mutation.body] at hNew
    constructor <;> intro hc <;>
      simp [Mutation.run, SetAnonymousReadPermission, hNew, hDo, hc, logLines]
  · rintro c projectKey permissions response ⟨request, hNew, hDo⟩
    simp only [Mutation.method, Mutation.url, Mutation.role, Mutation.body] at hNew
    constructor <;> intro hc <;>
      simp [Mutation.run, RemoveAnonymousReadPermission, hNew, hDo, hc, logLines]
  · rintro op c₁ c₂ key₁ key₂ perms₁ perms₂ response₁ response₂ ⟨request₁, hNew₁, hDo₁⟩
      ⟨request₂, hNew₂, hDo₂⟩ h₁ h₂
    cases op <;>
      simp only [Mutation.method, Mutation.url, Mutation.role, Mutation.body] at hNew₁ hNew₂ <;>
      simp [Mutation.run, SetLoggedInUserPermissions, RemoveLoggedInUsersPermissions,
        SetAnonymousReadPermission, RemoveAnonymousReadPermission, hNew₁, hDo₁, hNew₂, hDo₂,
        h₁, h₂, logLines]
  · intro op c projectKey permissions
    cases op <;>
      simp only [Mutation.run, SetLoggedInUserPermissions, RemoveLoggedInUsersPermissions,
        SetAnonymousReadPermission, RemoveAnonymousReadPermission] <;>
      generalize c.NewRequest _ _ _ = built <;>
      rcases built with err | request <;>
      simp only [logLines] <;>
      (try simp) <;>
      generalize c.Do _ _ _ = answer <;>
      rcases answer with ⟨response, err⟩ | ⟨response, v⟩ <;>
      simp only [logLines] <;>
      (try simp) <;>
      split_ifs <;> simp [logLines]

/-- C7. On a 400 answer `RemoveAnonymousReadPermission` returns the fixed
error "Group doesn't exist or one of the requested permission isn't supported
for the given endpoint.", which is not the unexpected-return-code message of
any status code, while each of the other three mutations returns the
unexpected-return-code message for 400. -/
theorem bad_request_is_described {D : Decls} (c : Client D) (projectKey : String) :
    (∀ (permissions : Slice String) (response : Response),
        c.Answers .removeAnonymous projectKey permissions response →
        response.StatusCode = 400 →
        (Mutation.run .removeAnonymous c projectKey permissions).out.err =
          some (.simple ⟨"Group doesn\x27t exist or one of the requested permission isn\x27t supported for the given endpoint."⟩)) ∧
    (∀ code : Int,
        "Group doesn\x27t exist or one of the requested permission isn\x27t supported for the given endpoint." ≠
          "Server responded with unexpected return code " ++ formatDecimal code) ∧
    (∀ (op : Mutation) (permissions : Slice String) (response : Response),
        op ≠ .removeAnonymous →
        c.Answers op projectKey permissions response →
        response.StatusCode = 400 →
        (op.run c projectKey permissions).out.err =
          some (.simple ⟨"Server responded with unexpected return code 400"⟩)) := by
  refine ⟨?_, ?_, ?_⟩
  · rintro permissions response ⟨request, hNew, hDo⟩ h400
    simp only [Mutation.method, Mutation.url, Mutation.role, Mutation.body] at hNew
    simp [Mutation.run, RemoveAnonymousReadPermission, hNew, hDo, h400]
  · intro code h
    have hd := congrArg String.data h
    rw [String.data_append] at hd
    have hS : "Server responded with unexpected return code ".data =
        'S' :: "erver responded with unexpected return code ".data := by decide
    have hG : "Group doesn\x27t exist or one of the requested permission isn\x27t supported for the given endpoint.".data.head? =
        some 'G' := by decide
    have hh := congrArg List.head? hd
    rw [hG, hS] at hh
    simp at hh
  · rintro op permissions response hop ⟨request, hNew, hDo⟩ h400
    have h4 : formatDecimal 400 = "400" := by decide
    cases op <;>
      simp only [Mutation.method, Mutation.url, Mutation.role, Mutation.body] at hNew <;>
      first
        | exact absurd rfl hop
        | (simp [Mutation.run, SetLoggedInUserPermissions, RemoveLoggedInUsersPermissions,
            SetAnonymousReadPermission, hNew, hDo, h400, h4]
           try decide)

/-- C8. For each of the four mutations, a status code other than 204, 304 and
401 (and other than 400 for `RemoveAnonymousReadPermission`) returns, with the
response, the error "Server responded with unexpected return code N", whose
message contains the decimal numeral of the status code. -/
theorem unexpected_status_is_reported {D : Decls} (op : Mutation) (c : Client D)
    (projectKey : String) (permissions : Slice String) (response : Response)
    (h : c.Answers op projectKey permissions response)
    (h204 : response.StatusCode ≠ 204) (h304 : response.StatusCode ≠ 304)
    (h401 : response.StatusCode ≠ 401)
    (h400 : op = .removeAnonymous → response.StatusCode ≠ 400) :
    (op.run c projectKey permissions).out.err =
        some (.simple ⟨"Server responded with unexpected return code " ++
          toString response.StatusCode⟩) ∧
      (∃ e, (op.run c projectKey permissions).out.err = some e ∧
        Contains e.Error (toString response.StatusCode) ∧
        Contains e.Error "unexpected return code") ∧
      (op.run c projectKey permissions).out.response = some response := by
  obtain ⟨request, hNew, hDo⟩ := h
  have hErr : (op.run c projectKey permissions).out.err =
      some (.simple ⟨"Server responded with unexpected return code " ++
        toString response.StatusCode⟩) := by
    have hFormat : formatDecimal response.StatusCode = toString response.StatusCode := by
      cases response.StatusCode <;> rfl
    rw [← hFormat]
    cases op <;>
      simp only [Mutation.method, Mutation.url, Mutation.role, Mutation.body] at hNew <;>
      simp_all [Mutation.run, SetLoggedInUserPermissions, RemoveLoggedInUsersPermissions,
        SetAnonymousReadPermission, RemoveAnonymousReadPermission]
  refine ⟨hErr, ⟨_, hErr, contains_end _ _,
    ⟨"Server responded with ", " " ++ toString response.StatusCode, ?_⟩⟩, ?_⟩
  · have hText : "Server responded with unexpected return code " =
        "Server responded with " ++ "unexpected return code" ++ " " := by decide
    show "Server responded with unexpected return code " ++ toString response.StatusCode = _
    rw [hText]
    simp only [String.append_assoc]
  · cases op <;>
      simp only [Mutation.method, Mutation.url, Mutation.role, Mutation.body] at hNew <;>
      simp_all [Mutation.run, SetLoggedInUserPermissions, RemoveLoggedInUsersPermissions,
        SetAnonymousReadPermission, RemoveAnonymousReadPermission]

/-- C9. Each mutation calls `NewRequest` exactly once: with method PUT for the
two Set operations and DELETE for the two Remove operations, with the URL
"permissions/projectplan/" + projectKey + "/roles/" + role, role being
"LOGGED_IN" for the logged-in operations and "ANONYMOUS" for the anonymous
ones, and with the permission list of the caller, unchanged, as body for the
logged-in operations and the one-element list of the read permission for the
anonymous ones. The request handed to `Do`, if any, is the one `NewRequest`
returned. -/
theorem mutation_request_shape {D : Decls} (c : Client D) (projectKey : String)
    (permissions : Slice String) :
    requestsBuilt (SetLoggedInUserPermissions c projectKey permissions).trace =
        [("PUT", "permissions/projectplan/" ++ projectKey ++ "/roles/" ++ "LOGGED_IN",
          some permissions)] ∧
    requestsBuilt (RemoveLoggedInUsersPermissions c projectKey permissions).trace =
        [("DELETE", "permissions/projectplan/" ++ projectKey ++ "/roles/" ++ "LOGGED_IN",
          some permissions)] ∧
    requestsBuilt (SetAnonymousReadPermission c projectKey).trace =
        [("PUT", "permissions/projectplan/" ++ projectKey ++ "/roles/" ++ "ANONYMOUS",
          some (some [D.ReadPermission]))] ∧
    requestsBuilt (RemoveAnonymousReadPermission c projectKey).trace =
        [("DELETE", "permissions/projectplan/" ++ projectKey ++ "/roles/" ++ "ANONYMOUS",
          some (some [D.ReadPermission]))] ∧
    (∀ op : Mutation, requestsSent (op.run c projectKey permissions).trace =
        match c.NewRequest op.method (op.url projectKey) (op.body D permissions) with
        | .ok request => [request]
        | .error _ => []) := by
  refine ⟨?_, ?_, ?_, ?_, ?_⟩
  · simp only [SetLoggedInUserPermissions, LoggedInRole]
    split
    · simp [requestsBuilt]
    · split
      · simp [requestsBuilt]
      · split_ifs <;> simp [requestsBuilt]
  · simp only [RemoveLoggedInUsersPermissions, LoggedInRole]
    split
    · simp [requestsBuilt]
    · split
      · simp [requestsBuilt]
      · split_ifs <;> simp [requestsBuilt]
  · simp only [SetAnonymousReadPermission, AnonymousRole]
    split
    · simp [requestsBuilt]
    · split
      · simp [requestsBuilt]
      · split_ifs <;> simp [requestsBuilt]
  · simp only [RemoveAnonymousReadPermission, AnonymousRole]
    split
    · simp [requestsBuilt]
    · split
      · simp [requestsBuilt]
      · split_ifs <;> simp [requestsBuilt]
  · intro op
    cases op <;>
      simp only [Mutation.run, Mutation.method, Mutation.url, Mutation.role, Mutation.body,
        SetLoggedInUserPermissions, RemoveLoggedInUsersPermissions,
        SetAnonymousReadPermission, RemoveAnonymousReadPermission] <;>
      generalize c.NewRequest _ _ _ = built <;>
      rcases built with err | request <;>
      simp only [requestsSent] <;>
      generalize c.Do _ _ _ = answer <;>
      rcases answer with ⟨response, err⟩ | ⟨response, v⟩ <;>
      simp only [requestsSent] <;>
      split_ifs <;> simp [requestsSent]

/-- C1. For every plan key, when the transport reports no error, the status
code is 200 and the decoded envelope holds a branch list, `ListPlanBranches`
returns that very list (the same entries in the same order, hence as many)
with the response and a nil error. -/
theorem list_plan_branches_ok {D : Decls} (c : Client D) (planKey : String)
    (request : Request) (response : Response) (envelope : PlanBranchResponse D)
    (branches : Branches D)
    (hNew : c.NewRequest "GET" ("plan/" ++ planKey ++ "/.json") none = .ok request)
    (hDo : c.Do .planBranch (withBranchQuery request) (PlanBranchResponse.zero D) =
      .success response envelope)
    (h200 : response.StatusCode = 200) (hB : envelope.Branches = some branches) :
    (ListPlanBranches c planKey).out =
        .returns { branches := branches.BranchList, response := some response, err := none } ∧
      ∀ r, (ListPlanBranches c planKey).out = .returns r →
        Slice.len r.branches = Slice.len branches.BranchList := by
  have h : (ListPlanBranches c planKey).out =
      .returns { branches := branches.BranchList, response := some response, err := none } := by
    simp [ListPlanBranches, hNew, hDo, h200, hB]
  refine ⟨h, ?_⟩
  intro r hr
  rw [h] at hr
  cases hr
  rfl

/-- C2. For every plan key, when the transport reports no error and the status
code is not 200, `ListPlanBranches` returns a nil list and a non-nil error
whose message contains the plan key and the status text of the response. -/
theorem list_plan_branches_status_error {D : Decls} (c : Client D) (planKey : String)
    (request : Request) (response : Response) (envelope : PlanBranchResponse D)
    (hNew : c.NewRequest "GET" ("plan/" ++ planKey ++ "/.json") none = .ok request)
    (hDo : c.Do .planBranch (withBranchQuery request) (PlanBranchResponse.zero D) =
      .success response envelope)
    (hStatus : response.StatusCode ≠ 200) :
    ∃ e : GoError,
      (ListPlanBranches c planKey).out =
        .returns { branches := none, response := some response, err := some e } ∧
      Contains e.Error planKey ∧ Contains e.Error response.Status := by
  refine ⟨.simple ⟨"Listing plan branches for " ++ planKey ++ " returned " ++ response.Status⟩,
    ?_, contains_inner _ _ _ _, contains_end _ _⟩
  simp [ListPlanBranches, hNew, hDo, hStatus]

/-- C10. `ListPlanBranches` panics exactly on the shape `BranchesMissing` (no
transport error, status 200, no branches object in the decoded envelope) and
returns on every other transport result: whenever building the request fails,
the transport reports an error, the status is not 200, or the branches object
is present. -/
theorem list_plan_branches_panics_iff {D : Decls} (c : Client D) (planKey : String) :
    ((ListPlanBranches c planKey).out = .panics ↔ BranchesMissing c planKey) ∧
    ((∃ r, (ListPlanBranches c planKey).out = .returns r) ↔ ¬ BranchesMissing c planKey) ∧
    (∀ err, c.NewRequest "GET" ("plan/" ++ planKey ++ "/.json") none = .error err →
      ∃ r, (ListPlanBranches c planKey).out = .returns r) ∧
    (∀ request, c.NewRequest "GET" ("plan/" ++ planKey ++ "/.json") none = .ok request →
      (∀ response err,
        c.Do .planBranch (withBranchQuery request) (PlanBranchResponse.zero D) =
          .failure response err →
        ∃ r, (ListPlanBranches c planKey).out = .returns r) ∧
      (∀ response envelope,
        c.Do .planBranch (withBranchQuery request) (PlanBranchResponse.zero D) =
          .success response envelope →
        (response.StatusCode ≠ 200 ∨ envelope.Branches ≠ none) →
        ∃ r, (ListPlanBranches c planKey).out = .returns r)) := by
  have key : (ListPlanBranches c planKey).out = .panics ↔ BranchesMissing c planKey := by
    unfold BranchesMissing
    constructor
    · intro h
      rcases hNew : c.NewRequest "GET" ("plan/" ++ planKey ++ "/.json") none with err | request
      · simp [ListPlanBranches, hNew] at h
      · rcases hDo : c.Do .planBranch (withBranchQuery request) (PlanBranchResponse.zero D)
          with ⟨response, err⟩ | ⟨response, envelope⟩
        · simp [ListPlanBranches, hNew, hDo] at h
        · by_cases h200 : response.StatusCode = 200
          · rcases hB : envelope.Branches with _ | branches
            · exact ⟨request, response, envelope, rfl, hDo, h200, hB⟩
            · simp [ListPlanBranches, hNew, hDo, h200, hB] at h
          · simp [ListPlanBranches, hNew, hDo, h200] at h
    · rintro ⟨request, response, envelope, hNew, hDo, h200, hB⟩
      simp [ListPlanBranches, hNew, hDo, h200, hB]
  have total : ∀ o : Outcome (BranchesResult D), (∃ r, o = .returns r) ↔ ¬ o = .panics := by
    intro o
    cases o <;> simp
  refine ⟨key, by rw [total, key], ?_, ?_⟩
  · intro err hNew
    simp [ListPlanBranches, hNew]
  · intro request hNew
    constructor
    · intro response err hDo
      simp [ListPlanBranches, hNew, hDo]
    · intro response envelope hDo h
      rw [total, key]
      rintro ⟨request', response', envelope', hNew', hDo', h200, hB⟩
      rw [hNew] at hNew'
      cases hNew'
      rw [hDo] at hDo'
      cases hDo'
      rcases h with h | h
      · exact h h200
      · exact h hB

/-- The decoder sets the role list when the field is declared exported
(`Results`, tagged `results`): the body `exampleRoleBody` decodes to its one
role. -/
theorem unmarshalRoleList_exported :
    unmarshalRoleList { goName := "Results", tag := some "results" } exampleRoleBody
      roleProjectPlanResponce.zero =
      .ok { results := some [{ Name := "ANONYMOUS", Permissions := some ["READ"] }] } := by
  rfl

/-- With the field as declared in `role.go`, decoding never changes the
target, whatever the body. -/
theorem unmarshalRoleList_results (body : JSON) (old v : roleProjectPlanResponce)
    (h : unmarshalRoleList resultsField body old = .ok v) : v = old := by
  have hk : resultsField.key = none := by decide
  cases body <;> simp [unmarshalRoleList, hk] at h <;> exact h.symm

/-- Whatever the status and the JSON body of the answer, `RolePermissionsList`
returns a nil role list. -/
theorem RolePermissionsList_roles_nil (D : Decls) (response : Response) (body : JSON)
    (projectKey : String) :
    (RolePermissionsList (Client.over D (servingRoles D response body)) projectKey).out.roles =
      none := by
  simp only [RolePermissionsList, Client.over, servingRoles, DoRoleList]
  rcases h : unmarshalRoleList resultsField body roleProjectPlanResponce.zero with err | v
  · simp
  · have hv := unmarshalRoleList_results body _ v h
    subst hv
    simp only
    split_ifs <;> rfl

/-- C3. At status 200 with the body
`{"results": [{"name": "ANONYMOUS", "permissions": ["READ"]}]}`
`RolePermissionsList` returns a nil role list, a nil response and a nil error:
the role of the body is not returned. -/
theorem role_list_is_dropped :
    (RolePermissionsList roleClient "PROJ").out =
        { roles := none, response := none, err := none } ∧
      (RolePermissionsList roleClient "PROJ").out.roles ≠
        some [{ Name := "ANONYMOUS", Permissions := some ["READ"] }] := by
  constructor
  · rfl
  · have h : (RolePermissionsList roleClient "PROJ").out.roles = none := rfl
    rw [h]
    exact Option.noConfusion

/-! ## The theorems at concrete inputs -/

theorem list_plan_branches_ok_witness :
    (ListPlanBranches (branchClient ⟨"200 OK", 200⟩ exampleEnvelope) "PROJ-PLAN").out =
      .returns { branches := some [some exampleBranch], response := some ⟨"200 OK", 200⟩,
                 err := none } :=
  (list_plan_branches_ok (branchClient ⟨"200 OK", 200⟩ exampleEnvelope) "PROJ-PLAN"
    { Method := "GET", URL := "plan/PROJ-PLAN/.json", Query := [], Body := none }
    ⟨"200 OK", 200⟩ exampleEnvelope
    { CollectionMetadata := none, BranchList := some [some exampleBranch] }
    rfl rfl rfl rfl).1

theorem list_plan_branches_status_error_witness :
    ∃ e : GoError,
      (ListPlanBranches (branchClient ⟨"404 Not Found", 404⟩ (PlanBranchResponse.zero _))
          "PROJ-PLAN").out =
        .returns { branches := none, response := some ⟨"404 Not Found", 404⟩, err := some e } ∧
      Contains e.Error "PROJ-PLAN" ∧ Contains e.Error "404 Not Found" :=
  list_plan_branches_status_error
    (branchClient ⟨"404 Not Found", 404⟩ (PlanBranchResponse.zero _)) "PROJ-PLAN"
    { Method := "GET", URL := "plan/PROJ-PLAN/.json", Query := [], Body := none }
    ⟨"404 Not Found", 404⟩ (PlanBranchResponse.zero _) rfl rfl (by decide)

theorem unauthorized_is_admin_error_witness :
    (∃ e, (Mutation.run .setAnonymous (statusClient ⟨"401 Unauthorized", 401⟩) "PROJ"
        none).out.err = some e ∧ Contains e.Error "must be an admin") ∧
    ((RolePermissionsList (statusClient ⟨"401 Unauthorized", 401⟩) "PROJ").out.roles = none ∧
      ∃ e, (RolePermissionsList (statusClient ⟨"401 Unauthorized", 401⟩) "PROJ").out.err =
        some e ∧ Contains e.Error "must be an admin") :=
  ⟨(unauthorized_is_admin_error (statusClient ⟨"401 Unauthorized", 401⟩) "PROJ").1
      .setAnonymous none ⟨"401 Unauthorized", 401⟩ ⟨_, rfl, rfl⟩ rfl,
   (unauthorized_is_admin_error (statusClient ⟨"401 Unauthorized", 401⟩) "PROJ").2
      { Method := "GET", URL := "permissions/projectplan/PROJ/roles", Query := [], Body := none }
      ⟨"401 Unauthorized", 401⟩ roleProjectPlanResponce.zero rfl rfl rfl⟩

theorem mutation_err_nil_iff_witness :
    (statusClient ⟨"204 No Content", 204⟩).Answers .removeLoggedIn "PROJ" (some ["READ"])
        ⟨"204 No Content", 204⟩ ∧
      (Mutation.run .removeLoggedIn (statusClient ⟨"204 No Content", 204⟩) "PROJ"
        (some ["READ"])).out.err = none ∧
      (Mutation.run .removeLoggedIn (statusClient ⟨"200 OK", 200⟩) "PROJ"
        (some ["READ"])).out.err ≠ none :=
  ⟨⟨_, rfl, rfl⟩,
   (mutation_err_nil_iff .removeLoggedIn (statusClient ⟨"204 No Content", 204⟩) "PROJ"
      (some ["READ"]) ⟨"204 No Content", 204⟩ ⟨_, rfl, rfl⟩).1.mpr (Or.inl rfl),
   (mutation_err_nil_iff .removeLoggedIn (statusClient ⟨"200 OK", 200⟩) "PROJ"
      (some ["READ"]) ⟨"200 OK", 200⟩ ⟨_, rfl, rfl⟩).2 rfl⟩

theorem success_is_logged_once_witness :
    logLines (Mutation.run .setAnonymous (statusClient ⟨"204 No Content", 204⟩) "PROJ"
        none).trace = ["Anonymous Role\x27s permissions were granted."] ∧
      logLines (Mutation.run .setAnonymous (statusClient ⟨"304 Not Modified", 304⟩) "PROJ"
        none).trace = ["Anonymous Role already had requested permissions and permission state hasn\x27t been changed."] ∧
      logLines (Mutation.run .removeLoggedIn (statusClient ⟨"204 No Content", 204⟩) "PROJ"
        (some ["READ"])).trace ≠
        logLines (Mutation.run .removeLoggedIn (statusClient ⟨"304 Not Modified", 304⟩) "PROJ"
          (some ["READ"])).trace ∧
      logLines (Mutation.run .setAnonymous (statusClient ⟨"401 Unauthorized", 401⟩) "PROJ"
        none).trace = [] :=
  ⟨(((success_is_logged_once exampleDecls).2.2.1 (statusClient ⟨"204 No Content", 204⟩) "PROJ"
      none ⟨"204 No Content", 204⟩ ⟨_, rfl, rfl⟩).1 rfl).2,
   (((success_is_logged_once exampleDecls).2.2.1 (statusClient ⟨"304 Not Modified", 304⟩) "PROJ"
      none ⟨"304 Not Modified", 304⟩ ⟨_, rfl, rfl⟩).2 rfl).2,
   (success_is_logged_once exampleDecls).2.2.2.2.1 .removeLoggedIn
      (statusClient ⟨"204 No Content", 204⟩) (statusClient ⟨"304 Not Modified", 304⟩)
      "PROJ" "PROJ" (some ["READ"]) (some ["READ"]) ⟨"204 No Content", 204⟩
      ⟨"304 Not Modified", 304⟩ ⟨_, rfl, rfl⟩ ⟨_, rfl, rfl⟩ rfl rfl,
   (success_is_logged_once exampleDecls).2.2.2.2.2 .setAnonymous
      (statusClient ⟨"401 Unauthorized", 401⟩) "PROJ" none (by decide)⟩

theorem bad_request_is_described_witness :
    (Mutation.run .removeAnonymous (statusClient ⟨"400 Bad Request", 400⟩) "PROJ" none).out.err =
        some (.simple ⟨"Group doesn\x27t exist or one of the requested permission isn\x27t supported for the given endpoint."⟩) ∧
      (Mutation.run .setAnonymous (statusClient ⟨"400 Bad Request", 400⟩) "PROJ" none).out.err =
        some (.simple ⟨"Server responded with unexpected return code 400"⟩) :=
  ⟨(bad_request_is_described (statusClient ⟨"400 Bad Request", 400⟩) "PROJ").1
      none ⟨"400 Bad Request", 400⟩ ⟨_, rfl, rfl⟩ rfl,
   (bad_request_is_described (statusClient ⟨"400 Bad Request", 400⟩) "PROJ").2.2
      .setAnonymous none ⟨"400 Bad Request", 400⟩ (by decide) ⟨_, rfl, rfl⟩ rfl⟩

theorem unexpected_status_is_reported_witness :
    (statusClient ⟨"500 Internal Server Error", 500⟩).Answers .setLoggedIn "PROJ" (some ["READ"])
        ⟨"500 Internal Server Error", 500⟩ ∧
      (Mutation.run .setLoggedIn (statusClient ⟨"500 Internal Server Error", 500⟩) "PROJ"
        (some ["READ"])).out.err =
        some (.simple ⟨"Server responded with unexpected return code 500"⟩) :=
  ⟨⟨_, rfl, rfl⟩,
   (unexpected_status_is_reported .setLoggedIn (statusClient ⟨"500 Internal Server Error", 500⟩)
      "PROJ" (some ["READ"]) ⟨"500 Internal Server Error", 500⟩ ⟨_, rfl, rfl⟩
      (by decide) (by decide) (by decide) (fun h => nomatch h)).1.trans (by decide)⟩

theorem list_plan_branches_panics_iff_witness :
    (ListPlanBranches (branchClient ⟨"200 OK", 200⟩ (PlanBranchResponse.zero _))
        "PROJ-PLAN").out = .panics ∧
      ∃ r, (ListPlanBranches (branchClient ⟨"500 Internal Server Error", 500⟩
        (PlanBranchResponse.zero _)) "PROJ-PLAN").out = .returns r :=
  ⟨(list_plan_branches_panics_iff (branchClient ⟨"200 OK", 200⟩ (PlanBranchResponse.zero _))
      "PROJ-PLAN").1.mpr ⟨_, _, _, rfl, rfl, rfl, rfl⟩,
   ((list_plan_branches_panics_iff (branchClient ⟨"500 Internal Server Error", 500⟩
      (PlanBranchResponse.zero _)) "PROJ-PLAN").2.2.2
      { Method := "GET", URL := "plan/PROJ-PLAN/.json", Query := [], Body := none } rfl).2
      ⟨"500 Internal Server Error", 500⟩ (PlanBranchResponse.zero _) rfl
      (Or.inl (by decide))⟩

end Bamboo
